import Mathlib

/-!
Verification of the droplet simulation and frame renderer of `src/main.rs`
(terminal "digital rain").

Embedding notes:
* `u16` fields are modelled as `Nat`.  The code's subtractions are guarded
  (`row >= distance` before `row - distance`; `len >= 1` always holds before
  `len - 1`), so truncated `Nat` subtraction agrees with `u16` subtraction on
  every reachable state.
* `f32`/`f64` fields (`frame`, `speed`, the gradient arithmetic) are modelled
  as `ℚ`.  All claim-relevant values (`1.0`, additions and the subtraction of
  `1.0` from a value in `[1, 2]`) are exact in `f32`, so the rational model is
  faithful on the states the claims talk about.
* Randomness is an injected oracle (`Rng`): each call of `rng.gen_range` is
  modelled by a function of an oracle value that always lands in the requested
  range, and that returns `none` (Rust panic) exactly when the half-open range
  is empty, matching `rand`'s behaviour.
* Terminal writes are collected into a list of `DrawOp` values in program
  order instead of being performed.
-/

/-- Constant `DROPLET_MIN_LENGTH` from the source. -/
def DROPLET_MIN_LENGTH : Nat := 2

/-- Constant `DROPLET_MAX_LENGTH` from the source. -/
def DROPLET_MAX_LENGTH : Nat := 20

/-- Constant `DROPLET_MIN_SPEED` from the source (`0.2_f32`, idealised as `1/5`). -/
def DROPLET_MIN_SPEED : ℚ := 1 / 5

/-- Constant `DROPLET_MAX_SPEED` from the source. -/
def DROPLET_MAX_SPEED : ℚ := 1

/-- Constant `BASE_COLOR` from the source. -/
def BASE_COLOR : Nat × Nat × Nat := (170, 255, 170)

/-- The `Droplet` struct of the source. -/
structure Droplet where
  row : Nat
  len : Nat
  max_len : Nat
  frame : ℚ
  speed : ℚ
  deriving DecidableEq, Repr

/-- The fragment of crossterm's `Color` enum used by the source. -/
inductive TermColor where
  | Rgb (r g b : Nat)
  | Reset
  deriving DecidableEq, Repr

/-- One terminal write: `MoveTo(col, row); SetForegroundColor(color); Print(glyph)`.
The glyph is its Unicode code point. -/
structure DrawOp where
  col : Nat
  row : Nat
  color : TermColor
  glyph : Nat
  deriving DecidableEq, Repr

/-- Rust's `f64 as u8` on a non-negative finite value: truncate toward zero and
saturate at the `u8` bounds (negative values saturate to `0`). -/
def f64_as_u8 (q : ℚ) : Nat :=
  min 255 (Int.toNat ⌊q⌋)

/-- Function `color_gradient` from the source: `scale = (len - distance) / len` in `f64`,
then each channel of `BASE_COLOR` scaled and cast `as u8`. -/
def color_gradient (droplet : Droplet) (distance : Nat) : TermColor :=
  let scale : ℚ := ((droplet.len : ℚ) - (distance : ℚ)) / (droplet.len : ℚ)
  TermColor.Rgb
    (f64_as_u8 ((BASE_COLOR.1 : ℚ) * scale))
    (f64_as_u8 ((BASE_COLOR.2.1 : ℚ) * scale))
    (f64_as_u8 ((BASE_COLOR.2.2 : ℚ) * scale))

/-- Function `random_char` from the source: a uniformly random code point in the
half-open range `0xFF66..0xFF9D`, driven by the oracle value `r`. -/
def random_char (r : Nat) : Nat :=
  0xFF66 + r % (0xFF9D - 0xFF66)

/-- Model of `rng.gen_range(lo..hi)` on integers: returns a value in `[lo, hi)`, and
`none` (Rust panic) when the range is empty. -/
def gen_range_nat (lo hi : Nat) (r : Nat) : Option Nat :=
  if lo < hi then some (lo + r % (hi - lo)) else none

/-- Model of `rng.gen_range(lo..=hi)` on integers: returns a value in `[lo, hi]`, and
`none` (Rust panic) when `hi < lo`. -/
def gen_range_nat_incl (lo hi : Nat) (r : Nat) : Option Nat :=
  if lo ≤ hi then some (lo + r % (hi + 1 - lo)) else none

/-- Model of `rng.gen_range(lo..=hi)` on floats, modelled as clamping the oracle value
into `[lo, hi]`: the result is some value of the interval. -/
def gen_range_rat_incl (lo hi : ℚ) (r : ℚ) : ℚ :=
  max lo (min hi r)

/-- The random oracle consumed by one column in one `draw_next_frame` call. -/
structure Rng where
  newRow : Nat
  newMaxLen : Nat
  newSpeed : ℚ
  glyphAt : Nat → Nat

/-- The replacement droplet built at lines 76-82 of the source when a droplet
has left the screen (`none` models the `gen_range` panic on `0..rows/4` when
`rows / 4 = 0`). -/
def spawnDroplet (rows : Nat) (rng : Rng) : Option Droplet :=
  match gen_range_nat 0 (rows / 4) rng.newRow,
        gen_range_nat_incl DROPLET_MIN_LENGTH DROPLET_MAX_LENGTH rng.newMaxLen with
  | some r, some m =>
      some { row := r, len := 1, max_len := m, frame := 1,
             speed := gen_range_rat_incl DROPLET_MIN_SPEED DROPLET_MAX_SPEED rng.newSpeed }
  | _, _ => none

/-- The startup droplet built in `main` (lines 127-138): `len = max_len` drawn
from `[DROPLET_MIN_LENGTH, DROPLET_MAX_LENGTH]`, `row` from `[0, rows)`. -/
def initialSpawn (rows : Nat) (rng : Rng) : Option Droplet :=
  match gen_range_nat_incl DROPLET_MIN_LENGTH DROPLET_MAX_LENGTH rng.newMaxLen,
        gen_range_nat 0 rows rng.newRow with
  | some l, some r =>
      some { row := r, len := l, max_len := l, frame := 1,
             speed := gen_range_rat_incl DROPLET_MIN_SPEED DROPLET_MAX_SPEED rng.newSpeed }
  | _, _ => none

/-- The trail-paint loop (source lines 85-94): for each `distance` in
`0..len+1`, if the cell is on screen, paint a random glyph at
`(col, row - distance)` with the gradient color.  `droplet` is the droplet as
it stands when the loop runs (before the end-of-iteration advance). -/
def trailOps (col rows : Nat) (droplet : Droplet) (glyphAt : Nat → Nat) : List DrawOp :=
  (List.range (droplet.len + 1)).filterMap (fun distance =>
    if distance ≤ droplet.row ∧ droplet.row - distance < rows then
      some { col := col, row := droplet.row - distance,
             color := color_gradient droplet distance,
             glyph := random_char (glyphAt distance) }
    else none)

/-- Result of processing one column in `draw_next_frame`: the column's droplet
afterwards, the terminal writes in program order, and whether the droplet was
replaced by a fresh spawn. -/
structure TickResult where
  droplet : Droplet
  ops : List DrawOp
  replaced : Bool
  deriving DecidableEq, Repr

/-- The per-column body of `draw_next_frame` (source lines 69-107):
`frame += speed`; if `frame < 1.0` rest; else if `row >= rows + len` replace
the droplet (painting nothing); else paint the trail, conditionally erase the
cell behind the tail, and only then advance `frame`, `row` and `len`.
`none` models a panic of the respawn `gen_range`. -/
def dropletTick (rows col : Nat) (rng : Rng) (d0 : Droplet) : Option TickResult :=
  let d : Droplet := { d0 with frame := d0.frame + d0.speed }
  if d.frame < 1 then
    some { droplet := d, ops := [], replaced := false }
  else if rows + d.len ≤ d.row then
    match spawnDroplet rows rng with
    | some fresh => some { droplet := fresh, ops := [], replaced := true }
    | none => none
  else
    let paints := trailOps col rows d rng.glyphAt
    let tailErase : List DrawOp :=
      if d.len - 1 < d.row then
        [{ col := col, row := d.row - d.len, color := TermColor.Reset, glyph := 0x20 }]
      else []
    some { droplet := { d with frame := d.frame - 1, row := d.row + 1,
                               len := min (d.len + 1) d.max_len },
           ops := paints ++ tailErase, replaced := false }

/-- Iterate `dropletTick` over a list of per-tick oracles. -/
def dropletTicks (rows col : Nat) (rngs : List Rng) (d : Droplet) : Option Droplet :=
  match rngs with
  | [] => some d
  | rng :: rest =>
      match dropletTick rows col rng d with
      | some res => dropletTicks rows col rest res.droplet
      | none => none

/-- A fixed oracle for concrete evaluations. -/
def rng0 : Rng :=
  { newRow := 0, newMaxLen := 0, newSpeed := 1, glyphAt := fun _ => 0 }

/-- The seed droplet of the end-to-end scenario. -/
def seedDroplet : Droplet :=
  { row := 0, len := 1, max_len := 3, frame := 1, speed := 1 }

/-- Row of a trail-paint write; `none` for the reset-colored tail erase.  The
trail paints always carry an `Rgb` color and the tail erase always carries
`Reset`, so this separates the two kinds of writes of one tick. -/
def paintRowOf (op : DrawOp) : Option Nat :=
  match op.color with
  | TermColor.Rgb _ _ _ => some op.row
  | TermColor.Reset => none

/-- Rows painted (with an `Rgb` color) by a list of writes, in order. -/
def paintRows (ops : List DrawOp) : List Nat :=
  ops.filterMap paintRowOf

/-- Modelled from the spec claim (advance-first reading): the rows the trail
paint would touch if the droplet state were advanced BEFORE painting, i.e.
`(row - d)` for `d` in `[0, len]` with `row` and `len` the post-advance
values.  Used only to compare the spec wording against the code. -/
def specPaintRowsPostAdvance (rows : Nat) (d0 : Droplet) : List Nat :=
  let row := d0.row + 1
  let len := min (d0.len + 1) d0.max_len
  (List.range (len + 1)).filterMap (fun d =>
    if d ≤ row ∧ row - d < rows then some (row - d) else none)

/-- Branch lemma: when the accumulator stays below `1.0` the droplet only
stores the incremented `frame` and nothing is drawn. -/
theorem dropletTick_rest (rows col : Nat) (rng : Rng) (d0 : Droplet)
    (h : d0.frame + d0.speed < 1) :
    dropletTick rows col rng d0 =
      some { droplet := { d0 with frame := d0.frame + d0.speed }, ops := [],
             replaced := false } := by
  simp [dropletTick, h]

/-- Branch lemma: when the accumulator reaches `1.0` and the droplet has left
the screen, the tick is the (possibly panicking) respawn and draws nothing. -/
theorem dropletTick_replace (rows col : Nat) (rng : Rng) (d0 : Droplet)
    (h1 : 1 ≤ d0.frame + d0.speed) (h2 : rows + d0.len ≤ d0.row) :
    dropletTick rows col rng d0 =
      (spawnDroplet rows rng).map
        (fun fresh => { droplet := fresh, ops := [], replaced := true }) := by
  have h1' : ¬ d0.frame + d0.speed < 1 := not_lt.mpr h1
  cases hs : spawnDroplet rows rng <;> simp [dropletTick, h1', h2, hs]

/-- Branch lemma: when the accumulator reaches `1.0` and the droplet is still
on screen, the tick paints the trail with the PRE-advance `row` and `len`,
conditionally erases the cell behind the tail, and only then advances the
droplet. -/
theorem dropletTick_step (rows col : Nat) (rng : Rng) (d0 : Droplet)
    (h1 : 1 ≤ d0.frame + d0.speed) (h2 : d0.row < rows + d0.len) :
    dropletTick rows col rng d0 =
      some { droplet := { row := d0.row + 1, len := min (d0.len + 1) d0.max_len,
                          max_len := d0.max_len, frame := d0.frame + d0.speed - 1,
                          speed := d0.speed },
             ops := trailOps col rows { d0 with frame := d0.frame + d0.speed }
                 rng.glyphAt ++
               (if d0.len - 1 < d0.row then
                  [{ col := col, row := d0.row - d0.len, color := TermColor.Reset,
                     glyph := 0x20 }]
                else []),
             replaced := false } := by
  have h1' : ¬ d0.frame + d0.speed < 1 := not_lt.mpr h1
  have h2' : ¬ rows + d0.len ≤ d0.row := not_le.mpr h2
  simp [dropletTick, h1', h2']

/-- Field-level description of a successful respawn (source lines 76-82). -/
theorem spawnDroplet_fields (rows : Nat) (rng : Rng) (fresh : Droplet)
    (h : spawnDroplet rows rng = some fresh) :
    fresh.len = 1 ∧ fresh.row < rows / 4 ∧
    DROPLET_MIN_LENGTH ≤ fresh.max_len ∧ fresh.max_len ≤ DROPLET_MAX_LENGTH ∧
    fresh.frame = 1 ∧
    DROPLET_MIN_SPEED ≤ fresh.speed ∧ fresh.speed ≤ DROPLET_MAX_SPEED := by
  by_cases hr : 0 < rows / 4
  · simp [spawnDroplet, gen_range_nat, gen_range_nat_incl, hr,
      DROPLET_MIN_LENGTH, DROPLET_MAX_LENGTH] at h
    subst h
    refine ⟨rfl, Nat.mod_lt _ hr, ?_, ?_, rfl, ?_, ?_⟩
    · exact Nat.le_add_right 2 _
    · have : rng.newMaxLen % 19 < 19 := Nat.mod_lt _ (by norm_num)
      simp [DROPLET_MIN_LENGTH, DROPLET_MAX_LENGTH]
      omega
    · exact le_max_left _ _
    · exact max_le (by norm_num [DROPLET_MIN_SPEED, DROPLET_MAX_SPEED])
        (min_le_left _ _)
  · simp [spawnDroplet, gen_range_nat, hr] at h

/-- The last element of a list with a single element appended. -/
theorem getLast?_append_single {α : Type} (l : List α) (a : α) :
    (l ++ [a]).getLast? = some a := by
  induction l with
  | nil => rfl
  | cons x xs ih =>
      rw [List.cons_append]
      cases hxs : xs ++ [a] with
      | nil => exact absurd hxs (by simp)
      | cons y ys => rw [List.getLast?_cons_cons, ← hxs, ih]

/-- Every write emitted by the trail-paint loop carries an `Rgb` color. -/
theorem trailOps_color_ne_reset (col rows : Nat) (d : Droplet) (g : Nat → Nat)
    (op : DrawOp) (h : op ∈ trailOps col rows d g) :
    op.color ≠ TermColor.Reset := by
  simp only [trailOps, List.mem_filterMap, List.mem_range] at h
  obtain ⟨dist, _, hop⟩ := h
  split at hop
  · cases hop
    simp [color_gradient]
  · cases hop

/-- When the oldest cell (`distance = len`) is on screen, the trail-paint loop
emits a write for it. -/
theorem trailOps_mem_tail (col rows : Nat) (d : Droplet) (g : Nat → Nat)
    (hd : d.len ≤ d.row) (hscr : d.row - d.len < rows) :
    ({ col := col, row := d.row - d.len, color := color_gradient d d.len,
       glyph := random_char (g d.len) } : DrawOp) ∈ trailOps col rows d g := by
  simp only [trailOps, List.mem_filterMap, List.mem_range]
  exact ⟨d.len, Nat.lt_succ_self _, by simp [hd, hscr]⟩

/-- The gradient at `distance = len` is fully dark. -/
theorem color_gradient_tail (d : Droplet) :
    color_gradient d d.len = TermColor.Rgb 0 0 0 := by
  simp [color_gradient, f64_as_u8, BASE_COLOR]

/-- The rows painted by the trail loop, as a function of the droplet state the
loop reads. -/
theorem paintRows_trailOps (col rows : Nat) (d : Droplet) (g : Nat → Nat) :
    paintRows (trailOps col rows d g) =
      (List.range (d.len + 1)).filterMap (fun dist =>
        if dist ≤ d.row ∧ d.row - dist < rows then some (d.row - dist) else none) := by
  unfold paintRows trailOps
  rw [List.filterMap_filterMap]
  congr 1
  funext dist
  by_cases hc : dist ≤ d.row ∧ d.row - dist < rows <;>
    simp [hc, paintRowOf, color_gradient]

/-- Concrete evaluation of one tick of the end-to-end scenario seed. -/
theorem seed_tick_eval :
    dropletTick 5 0 rng0 seedDroplet =
      some { droplet := { row := 1, len := 2, max_len := 3, frame := 1, speed := 1 },
             ops := [{ col := 0, row := 0, color := TermColor.Rgb 170 255 170,
                       glyph := 65382 }],
             replaced := false } := by
  norm_num [dropletTick, seedDroplet, rng0, trailOps, List.range_succ, color_gradient,
    f64_as_u8, random_char, BASE_COLOR, List.filterMap_cons, List.filterMap_nil]
  decide

/-- C1, counterexample: from `row=0, len=1, max_len=3, frame=1.0, speed=1.0`
on `rows=5`, one application of the per-tick transition leaves `frame = 1.0`
(`1.0 + 1.0 - 1.0`), not `frame = 0.0` as claimed. -/
theorem C1_counterexample :
    (dropletTick 5 0 rng0 seedDroplet).map (fun res => res.droplet.frame) =
      some 1 ∧ (1 : ℚ) ≠ 0 := by
  rw [seed_tick_eval]
  norm_num

/-- C1, amended: starting from a droplet with `row=0, len=1, max_len=3,
frame=1.0, speed=1.0` on a terminal with `rows=5`, one application of the
per-tick transition of `draw_next_frame` (for any random oracle) yields
`row=1, len=2, frame=1.0`; a second yields `row=2, len=3`; a third yields
`row=3, len=3` (clamped at `max_len`). -/
theorem C1_scenario (rngA rngB rngC : Rng) :
    (dropletTick 5 0 rngA seedDroplet).map TickResult.droplet =
      some { row := 1, len := 2, max_len := 3, frame := 1, speed := 1 } ∧
    (dropletTick 5 0 rngB
        { row := 1, len := 2, max_len := 3, frame := 1, speed := 1 }).map
        TickResult.droplet =
      some { row := 2, len := 3, max_len := 3, frame := 1, speed := 1 } ∧
    (dropletTick 5 0 rngC
        { row := 2, len := 3, max_len := 3, frame := 1, speed := 1 }).map
        TickResult.droplet =
      some { row := 3, len := 3, max_len := 3, frame := 1, speed := 1 } := by
  refine ⟨?_, ?_, ?_⟩
  · rw [dropletTick_step 5 0 rngA seedDroplet (by norm_num [seedDroplet])
      (by norm_num [seedDroplet])]
    norm_num [seedDroplet, Nat.min_def]
  · rw [dropletTick_step 5 0 rngB _ (by norm_num) (by norm_num)]
    norm_num [Nat.min_def]
  · rw [dropletTick_step 5 0 rngC _ (by norm_num) (by norm_num)]
    norm_num [Nat.min_def]

/-- C2, counterexample: on the seed droplet (`row=0, len=1`) with `rows=5`,
the code paints only row `0` (pre-advance values), while painting at the
post-advance values `row=1, len=2` would touch rows `1` and `0`. -/
theorem C2_counterexample :
    (dropletTick 5 0 rng0 seedDroplet).map (fun res => paintRows res.ops) =
      some [0] ∧
    specPaintRowsPostAdvance 5 seedDroplet = [1, 0] ∧
    ([0] : List Nat) ≠ [1, 0] := by
  rw [seed_tick_eval]
  exact ⟨by decide, by decide, by decide⟩

/-- C2, amended: on every `draw_next_frame` invocation in which a column's
droplet takes a row step and is not replaced, the trail is painted FIRST at
rows `(row - d)` for `d` in `[0, len]` using the PRE-advance `row` and `len`,
and the droplet's state is only advanced afterwards
(`frame -= 1.0`, `row += 1`, `len = min(len + 1, max_len)`). -/
theorem C2_paint_preadvance (rows col : Nat) (rng : Rng) (d0 : Droplet)
    (res : TickResult)
    (h1 : 1 ≤ d0.frame + d0.speed) (h2 : d0.row < rows + d0.len)
    (h : dropletTick rows col rng d0 = some res) :
    paintRows res.ops =
      (List.range (d0.len + 1)).filterMap (fun dist =>
        if dist ≤ d0.row ∧ d0.row - dist < rows then some (d0.row - dist)
        else none) ∧
    res.droplet.row = d0.row + 1 ∧
    res.droplet.len = min (d0.len + 1) d0.max_len ∧
    res.droplet.frame = d0.frame + d0.speed - 1 := by
  rw [dropletTick_step rows col rng d0 h1 h2] at h
  injection h with h; subst h
  refine ⟨?_, rfl, rfl, rfl⟩
  show paintRows
      (trailOps col rows { d0 with frame := d0.frame + d0.speed } rng.glyphAt ++ _) = _
  rw [paintRows, List.filterMap_append]
  have hz : (if d0.len - 1 < d0.row then
        [({ col := col, row := d0.row - d0.len, color := TermColor.Reset,
            glyph := 0x20 } : DrawOp)]
      else []).filterMap paintRowOf = [] := by
    split <;> rfl
  rw [hz, List.append_nil]
  exact paintRows_trailOps col rows _ rng.glyphAt

/-- Witness for C2: the amended statement instantiated on the seed droplet. -/
theorem C2_paint_preadvance_witness :
    (1 : ℚ) ≤ seedDroplet.frame + seedDroplet.speed ∧
    seedDroplet.row < 5 + seedDroplet.len ∧
    (paintRows [{ col := 0, row := 0, color := TermColor.Rgb 170 255 170,
                  glyph := 65382 }] =
      (List.range (seedDroplet.len + 1)).filterMap (fun dist =>
        if dist ≤ seedDroplet.row ∧ seedDroplet.row - dist < 5 then
          some (seedDroplet.row - dist)
        else none) ∧
    (1 : Nat) = seedDroplet.row + 1 ∧
    (2 : Nat) = min (seedDroplet.len + 1) seedDroplet.max_len ∧
    (1 : ℚ) = seedDroplet.frame + seedDroplet.speed - 1) := by
  refine ⟨by norm_num [seedDroplet], by norm_num [seedDroplet], ?_⟩
  exact C2_paint_preadvance 5 0 rng0 seedDroplet _ (by norm_num [seedDroplet])
    (by norm_num [seedDroplet]) seed_tick_eval

/-- C3: on a tick where the accumulator reaches `1.0`, the droplet is replaced
iff `row >= rows + len` at that point; the replacement atomically resets all
five fields (`len = 1`, `row` in `[0, rows/4)`, `max_len` in
`[DROPLET_MIN_LENGTH, DROPLET_MAX_LENGTH]`, `frame = 1.0`, `speed` in
`[DROPLET_MIN_SPEED, DROPLET_MAX_SPEED]`) and paints or erases nothing. -/
theorem C3_replacement (rows col : Nat) (rng : Rng) (d0 : Droplet)
    (res : TickResult)
    (hstep : 1 ≤ d0.frame + d0.speed)
    (h : dropletTick rows col rng d0 = some res) :
    (res.replaced = true ↔ rows + d0.len ≤ d0.row) ∧
    (res.replaced = true →
      res.droplet.len = 1 ∧ res.droplet.row < rows / 4 ∧
      DROPLET_MIN_LENGTH ≤ res.droplet.max_len ∧
      res.droplet.max_len ≤ DROPLET_MAX_LENGTH ∧
      res.droplet.frame = 1 ∧
      DROPLET_MIN_SPEED ≤ res.droplet.speed ∧
      res.droplet.speed ≤ DROPLET_MAX_SPEED ∧ res.ops = []) := by
  by_cases hx : rows + d0.len ≤ d0.row
  · rw [dropletTick_replace rows col rng d0 hstep hx] at h
    cases hs : spawnDroplet rows rng with
    | none => rw [hs] at h; cases h
    | some fresh =>
        rw [hs] at h
        injection h with h; subst h
        obtain ⟨e1, e2, e3, e4, e5, e6, e7⟩ := spawnDroplet_fields rows rng fresh hs
        exact ⟨by simp [hx], fun _ => ⟨e1, e2, e3, e4, e5, e6, e7, rfl⟩⟩
  · rw [dropletTick_step rows col rng d0 hstep (not_le.mp hx)] at h
    injection h with h; subst h
    exact ⟨by simp [hx], by simp⟩

/-- Concrete evaluation of a replacement tick (`rows = 8`, exhausted droplet). -/
theorem exhausted_tick_eval :
    dropletTick 8 0 rng0 { row := 10, len := 2, max_len := 3, frame := 1, speed := 1 } =
      some { droplet := { row := 0, len := 1, max_len := 2, frame := 1, speed := 1 },
             ops := [], replaced := true } := by
  norm_num [dropletTick, spawnDroplet, gen_range_nat, gen_range_nat_incl,
    gen_range_rat_incl, rng0, DROPLET_MIN_LENGTH, DROPLET_MAX_LENGTH,
    DROPLET_MIN_SPEED, DROPLET_MAX_SPEED]

/-- Witness for C3: the replacement description instantiated on an exhausted
droplet with `rows = 8`. -/
theorem C3_replacement_witness :
    (1 : ℚ) ≤ 1 + 1 ∧
    ((true = true ↔ 8 + 2 ≤ 10) ∧
     (true = true →
       (1 : Nat) = 1 ∧ (0 : Nat) < 8 / 4 ∧ DROPLET_MIN_LENGTH ≤ 2 ∧
       (2 : Nat) ≤ DROPLET_MAX_LENGTH ∧ (1 : ℚ) = 1 ∧
       DROPLET_MIN_SPEED ≤ 1 ∧ (1 : ℚ) ≤ DROPLET_MAX_SPEED ∧
       ([] : List DrawOp) = [])) := by
  refine ⟨by norm_num, ?_⟩
  exact C3_replacement 8 0 rng0
    { row := 10, len := 2, max_len := 3, frame := 1, speed := 1 } _
    (by norm_num) exhausted_tick_eval

/-- C4: on a replacement tick, the respawn samples `row` from the half-open
range `0..rows/4`, which is empty when `rows < 4`: the replacement branch then
panics instead of producing a droplet, and it is panic-free when `rows ≥ 4`. -/
theorem C4_respawn_panic (rows col : Nat) (rng : Rng) (d0 : Droplet)
    (hstep : 1 ≤ d0.frame + d0.speed) (hex : rows + d0.len ≤ d0.row) :
    (rows < 4 → dropletTick rows col rng d0 = none) ∧
    (4 ≤ rows → ∃ res, dropletTick rows col rng d0 = some res ∧
      res.replaced = true) := by
  rw [dropletTick_replace rows col rng d0 hstep hex]
  constructor
  · intro hlt
    have hq : rows / 4 = 0 := Nat.div_eq_of_lt hlt
    simp [spawnDroplet, gen_range_nat, hq]
  · intro hge
    have hq : 0 < rows / 4 := Nat.div_pos hge (by norm_num)
    simp [spawnDroplet, gen_range_nat, gen_range_nat_incl, hq,
      DROPLET_MIN_LENGTH, DROPLET_MAX_LENGTH]

/-- Witness for C4: the panic on `rows = 3` and the panic-free respawn on
`rows = 4`, for the same exhausted droplet. -/
theorem C4_respawn_panic_witness :
    ((1 : ℚ) ≤ 1 + 1) ∧ (3 + 2 ≤ 10) ∧ (4 + 2 ≤ 10) ∧
    ((3 < 4 →
        dropletTick 3 0 rng0
          { row := 10, len := 2, max_len := 3, frame := 1, speed := 1 } = none) ∧
     (4 ≤ 3 → ∃ res,
        dropletTick 3 0 rng0
          { row := 10, len := 2, max_len := 3, frame := 1, speed := 1 } = some res ∧
        res.replaced = true)) ∧
    ((4 < 4 →
        dropletTick 4 0 rng0
          { row := 10, len := 2, max_len := 3, frame := 1, speed := 1 } = none) ∧
     (4 ≤ 4 → ∃ res,
        dropletTick 4 0 rng0
          { row := 10, len := 2, max_len := 3, frame := 1, speed := 1 } = some res ∧
        res.replaced = true)) := by
  refine ⟨by norm_num, by norm_num, by norm_num, ?_, ?_⟩
  · exact C4_respawn_panic 3 0 rng0 _ (by norm_num) (by norm_num)
  · exact C4_respawn_panic 4 0 rng0 _ (by norm_num) (by norm_num)

/-- Field-level description of a successful startup spawn (`main`). -/
theorem initialSpawn_fields (rows : Nat) (rng : Rng) (d : Droplet)
    (h : initialSpawn rows rng = some d) :
    d.len = d.max_len ∧ DROPLET_MIN_LENGTH ≤ d.len ∧
    d.len ≤ DROPLET_MAX_LENGTH ∧ d.row < rows ∧ d.frame = 1 ∧
    DROPLET_MIN_SPEED ≤ d.speed ∧ d.speed ≤ DROPLET_MAX_SPEED := by
  by_cases hr : 0 < rows
  · simp [initialSpawn, gen_range_nat, gen_range_nat_incl, hr,
      DROPLET_MIN_LENGTH, DROPLET_MAX_LENGTH] at h
    subst h
    refine ⟨rfl, Nat.le_add_right 2 _, ?_, Nat.mod_lt _ hr, rfl, le_max_left _ _,
      max_le (by norm_num [DROPLET_MIN_SPEED, DROPLET_MAX_SPEED])
        (min_le_left _ _)⟩
    have : rng.newMaxLen % 19 < 19 := Nat.mod_lt _ (by norm_num)
    simp [DROPLET_MAX_LENGTH]
    omega
  · simp [initialSpawn, gen_range_nat, gen_range_nat_incl, hr] at h

/-- One tick preserves the length invariant `1 ≤ len ≤ max_len`. -/
theorem lenInv_tick (rows col : Nat) (rng : Rng) (d0 : Droplet)
    (res : TickResult)
    (h1 : 1 ≤ d0.len) (h2 : d0.len ≤ d0.max_len)
    (h : dropletTick rows col rng d0 = some res) :
    1 ≤ res.droplet.len ∧ res.droplet.len ≤ res.droplet.max_len := by
  by_cases hlt : d0.frame + d0.speed < 1
  · rw [dropletTick_rest rows col rng d0 hlt] at h
    injection h with h; subst h
    exact ⟨h1, h2⟩
  · have hs1 : 1 ≤ d0.frame + d0.speed := not_lt.mp hlt
    by_cases hx : rows + d0.len ≤ d0.row
    · rw [dropletTick_replace rows col rng d0 hs1 hx] at h
      cases hs : spawnDroplet rows rng with
      | none => rw [hs] at h; cases h
      | some fresh =>
          rw [hs] at h
          injection h with h; subst h
          obtain ⟨e1, _, e3, _, _, _, _⟩ := spawnDroplet_fields rows rng fresh hs
          constructor
          · show 1 ≤ fresh.len
            omega
          · show fresh.len ≤ fresh.max_len
            have : DROPLET_MIN_LENGTH = 2 := rfl
            omega
    · rw [dropletTick_step rows col rng d0 hs1 (not_le.mp hx)] at h
      injection h with h; subst h
      constructor
      · show 1 ≤ min (d0.len + 1) d0.max_len
        exact le_min (by omega) (le_trans h1 h2)
      · show min (d0.len + 1) d0.max_len ≤ d0.max_len
        exact min_le_right _ _

/-- Any number of ticks preserves the length invariant. -/
theorem lenInv_ticks (rows col : Nat) (rngs : List Rng) (d0 d1 : Droplet)
    (h1 : 1 ≤ d0.len) (h2 : d0.len ≤ d0.max_len)
    (h : dropletTicks rows col rngs d0 = some d1) :
    1 ≤ d1.len ∧ d1.len ≤ d1.max_len := by
  induction rngs generalizing d0 with
  | nil =>
      simp [dropletTicks] at h
      subst h
      exact ⟨h1, h2⟩
  | cons rng rest ih =>
      rw [dropletTicks] at h
      cases ht : dropletTick rows col rng d0 with
      | none => rw [ht] at h; cases h
      | some res =>
          rw [ht] at h
          obtain ⟨g1, g2⟩ := lenInv_tick rows col rng d0 res h1 h2 ht
          exact ih res.droplet g1 g2 h

/-- C5: every droplet created by either spawn path (the startup spawn in
`main` or the replacement spawn in `draw_next_frame`) satisfies
`1 ≤ len ≤ max_len` after any number of `draw_next_frame` ticks. -/
theorem C5_len_invariant (rows col : Nat) (rng : Rng) (rngs : List Rng)
    (d0 d1 : Droplet)
    (hspawn : initialSpawn rows rng = some d0 ∨ spawnDroplet rows rng = some d0)
    (hticks : dropletTicks rows col rngs d0 = some d1) :
    1 ≤ d1.len ∧ d1.len ≤ d1.max_len := by
  have hinv : 1 ≤ d0.len ∧ d0.len ≤ d0.max_len := by
    rcases hspawn with hi | hs
    · obtain ⟨e1, e2, _, _, _, _, _⟩ := initialSpawn_fields rows rng d0 hi
      have : DROPLET_MIN_LENGTH = 2 := rfl
      omega
    · obtain ⟨e1, _, e3, _, _, _, _⟩ := spawnDroplet_fields rows rng d0 hs
      have : DROPLET_MIN_LENGTH = 2 := rfl
      omega
  exact lenInv_ticks rows col rngs d0 d1 hinv.1 hinv.2 hticks

/-- Witness for C5: the startup spawn on `rows = 8` with the fixed oracle,
followed by one tick. -/
theorem C5_len_invariant_witness :
    (initialSpawn 8 rng0 =
        some { row := 0, len := 2, max_len := 2, frame := 1, speed := 1 } ∨
     spawnDroplet 8 rng0 =
        some { row := 0, len := 2, max_len := 2, frame := 1, speed := 1 }) ∧
    dropletTicks 8 0 [rng0]
        { row := 0, len := 2, max_len := 2, frame := 1, speed := 1 } =
      some { row := 1, len := 2, max_len := 2, frame := 1, speed := 1 } ∧
    ((1 : Nat) ≤ 2 ∧ (2 : Nat) ≤ 2) := by
  have hi : initialSpawn 8 rng0 =
      some { row := 0, len := 2, max_len := 2, frame := 1, speed := 1 } := by
    norm_num [initialSpawn, gen_range_nat, gen_range_nat_incl, gen_range_rat_incl,
      rng0, DROPLET_MIN_LENGTH, DROPLET_MAX_LENGTH, DROPLET_MIN_SPEED,
      DROPLET_MAX_SPEED]
  have ht1 : dropletTick 8 0 rng0
      { row := 0, len := 2, max_len := 2, frame := 1, speed := 1 } =
      some { droplet := { row := 1, len := 2, max_len := 2, frame := 1, speed := 1 },
             ops := [{ col := 0, row := 0, color := TermColor.Rgb 170 255 170,
                       glyph := 65382 }],
             replaced := false } := by
    norm_num [dropletTick, rng0, trailOps, List.range_succ, color_gradient,
      f64_as_u8, random_char, BASE_COLOR, List.filterMap_cons, List.filterMap_nil,
      Nat.min_def]
    decide
  have ht : dropletTicks 8 0 [rng0]
      { row := 0, len := 2, max_len := 2, frame := 1, speed := 1 } =
      some { row := 1, len := 2, max_len := 2, frame := 1, speed := 1 } := by
    simp only [dropletTicks, ht1]
  exact ⟨Or.inl hi, ht,
    C5_len_invariant 8 0 rng0 [rng0] _ _ (Or.inl hi) ht⟩

/-- C6: for a droplet with `speed` in `(0, 1]` and `frame ≤ 1.0` before a
tick, `frame` never exceeds `1.0` after the droplet's per-tick processing. -/
theorem C6_frame_le_one (rows col : Nat) (rng : Rng) (d0 : Droplet)
    (res : TickResult)
    (hs0 : 0 < d0.speed) (hs1 : d0.speed ≤ 1) (hf : d0.frame ≤ 1)
    (h : dropletTick rows col rng d0 = some res) :
    res.droplet.frame ≤ 1 := by
  by_cases hlt : d0.frame + d0.speed < 1
  · rw [dropletTick_rest rows col rng d0 hlt] at h
    injection h with h; subst h
    show d0.frame + d0.speed ≤ 1
    exact le_of_lt hlt
  · have h1 : 1 ≤ d0.frame + d0.speed := not_lt.mp hlt
    by_cases hx : rows + d0.len ≤ d0.row
    · rw [dropletTick_replace rows col rng d0 h1 hx] at h
      cases hs : spawnDroplet rows rng with
      | none => rw [hs] at h; cases h
      | some fresh =>
          rw [hs] at h
          injection h with h; subst h
          show fresh.frame ≤ 1
          rw [(spawnDroplet_fields rows rng fresh hs).2.2.2.2.1]
    · rw [dropletTick_step rows col rng d0 h1 (not_le.mp hx)] at h
      injection h with h; subst h
      show d0.frame + d0.speed - 1 ≤ 1
      linarith

/-- Witness for C6: a resting tick (`frame = 0`, `speed = 1/2`). -/
theorem C6_frame_le_one_witness :
    (0 : ℚ) < 1 / 2 ∧ (1 / 2 : ℚ) ≤ 1 ∧ (0 : ℚ) ≤ 1 ∧
    dropletTick 5 0 rng0 { row := 0, len := 1, max_len := 3, frame := 0, speed := 1 / 2 } =
      some { droplet := { row := 0, len := 1, max_len := 3, frame := 1 / 2, speed := 1 / 2 },
             ops := [], replaced := false } ∧
    ({ droplet := { row := 0, len := 1, max_len := 3, frame := 1 / 2, speed := 1 / 2 },
       ops := [], replaced := false } : TickResult).droplet.frame ≤ 1 := by
  have ht : dropletTick 5 0 rng0
      { row := 0, len := 1, max_len := 3, frame := 0, speed := 1 / 2 } =
      some { droplet := { row := 0, len := 1, max_len := 3, frame := 1 / 2, speed := 1 / 2 },
             ops := [], replaced := false } := by
    norm_num [dropletTick]
  refine ⟨by norm_num, by norm_num, by norm_num, ht, ?_⟩
  exact C6_frame_le_one 5 0 rng0 _ _ (by norm_num) (by norm_num) (by norm_num) ht

/-- C7: `color_gradient` computes `scale = (len - d) / len` and scales each
channel of the fixed base color `(170, 255, 170)` by `scale`, truncating to
integer; for `len = 10`, `d = 0` the result is exactly `(170, 255, 170)`, and
for `d = len` the result is exactly `(0, 0, 0)`. -/
theorem C7_color_gradient :
    (∀ (d : Droplet) (dist : Nat),
        color_gradient d dist =
          TermColor.Rgb
            (f64_as_u8 (170 * (((d.len : ℚ) - (dist : ℚ)) / (d.len : ℚ))))
            (f64_as_u8 (255 * (((d.len : ℚ) - (dist : ℚ)) / (d.len : ℚ))))
            (f64_as_u8 (170 * (((d.len : ℚ) - (dist : ℚ)) / (d.len : ℚ))))) ∧
    color_gradient { row := 0, len := 10, max_len := 10, frame := 1, speed := 1 } 0 =
      TermColor.Rgb 170 255 170 ∧
    (∀ d : Droplet, color_gradient d d.len = TermColor.Rgb 0 0 0) := by
  refine ⟨fun d dist => rfl, ?_, fun d => color_gradient_tail d⟩
  norm_num [color_gradient, f64_as_u8, BASE_COLOR]
  decide

/-- C8: on a tick in which the droplet takes a row step and is not replaced, a
blank with the terminal's reset color is written, after the trail paint, at
`(col, row - len)` iff `row > len - 1` (pre-advance values, as the code reads
them). -/
theorem C8_tail_erase (rows col : Nat) (rng : Rng) (d0 : Droplet)
    (res : TickResult)
    (h1 : 1 ≤ d0.frame + d0.speed) (h2 : d0.row < rows + d0.len)
    (hlen : 1 ≤ d0.len)
    (h : dropletTick rows col rng d0 = some res) :
    ((∃ op ∈ res.ops, op.color = TermColor.Reset) ↔ d0.len - 1 < d0.row) ∧
    (d0.len - 1 < d0.row →
      res.ops.getLast? = some { col := col, row := d0.row - d0.len,
                                color := TermColor.Reset, glyph := 0x20 }) := by
  rw [dropletTick_step rows col rng d0 h1 h2] at h
  injection h with h; subst h
  by_cases he : d0.len - 1 < d0.row
  · rw [if_pos he]
    constructor
    · constructor
      · intro _; exact he
      · intro _
        exact ⟨_, List.mem_append_right _ (List.mem_singleton_self _), rfl⟩
    · intro _
      exact getLast?_append_single _ _
  · rw [if_neg he]
    constructor
    · rw [List.append_nil]
      constructor
      · rintro ⟨op, hmem, hcol⟩
        exact absurd hcol (trailOps_color_ne_reset _ _ _ _ _ hmem)
      · intro hc; exact absurd hc he
    · intro hc; exact absurd hc he

/-- Witness for C8: a stepping droplet (`row=2, len=1`, `rows=5`) whose tail
erase fires at `(0, 1)`. -/
theorem C8_tail_erase_witness :
    (1 : ℚ) ≤ 1 + 1 ∧ (2 : Nat) < 5 + 1 ∧ (1 : Nat) ≤ 1 ∧
    dropletTick 5 0 rng0 { row := 2, len := 1, max_len := 3, frame := 1, speed := 1 } =
      some { droplet := { row := 3, len := 2, max_len := 3, frame := 1, speed := 1 },
             ops := [{ col := 0, row := 2, color := TermColor.Rgb 170 255 170,
                       glyph := 65382 },
                     { col := 0, row := 1, color := TermColor.Rgb 0 0 0,
                       glyph := 65382 },
                     { col := 0, row := 1, color := TermColor.Reset, glyph := 32 }],
             replaced := false } ∧
    (((∃ op ∈ [({ col := 0, row := 2, color := TermColor.Rgb 170 255 170,
                  glyph := 65382 } : DrawOp),
                { col := 0, row := 1, color := TermColor.Rgb 0 0 0, glyph := 65382 },
                { col := 0, row := 1, color := TermColor.Reset, glyph := 32 }],
          op.color = TermColor.Reset) ↔ 1 - 1 < 2) ∧
     (1 - 1 < 2 →
       ([({ col := 0, row := 2, color := TermColor.Rgb 170 255 170,
            glyph := 65382 } : DrawOp),
          { col := 0, row := 1, color := TermColor.Rgb 0 0 0, glyph := 65382 },
          { col := 0, row := 1, color := TermColor.Reset, glyph := 32 }]).getLast? =
         some { col := 0, row := 2 - 1, color := TermColor.Reset, glyph := 32 })) := by
  have ht : dropletTick 5 0 rng0
      { row := 2, len := 1, max_len := 3, frame := 1, speed := 1 } =
      some { droplet := { row := 3, len := 2, max_len := 3, frame := 1, speed := 1 },
             ops := [{ col := 0, row := 2, color := TermColor.Rgb 170 255 170,
                       glyph := 65382 },
                     { col := 0, row := 1, color := TermColor.Rgb 0 0 0,
                       glyph := 65382 },
                     { col := 0, row := 1, color := TermColor.Reset, glyph := 32 }],
             replaced := false } := by
    norm_num [dropletTick, rng0, trailOps, List.range_succ, color_gradient,
      f64_as_u8, random_char, BASE_COLOR, List.filterMap_cons, List.filterMap_nil,
      Nat.min_def]
    decide
  refine ⟨by norm_num, by norm_num, by norm_num, ht, ?_⟩
  exact C8_tail_erase 5 0 rng0
    { row := 2, len := 1, max_len := 3, frame := 1, speed := 1 } _
    (by norm_num) (by norm_num) (by norm_num) ht

/-- C9: across a tick that does not replace the droplet, `row` never
decreases; replacement restarts the property for the new instance. -/
theorem C9_row_monotone (rows col : Nat) (rng : Rng) (d0 : Droplet)
    (res : TickResult)
    (h : dropletTick rows col rng d0 = some res)
    (hrep : res.replaced = false) :
    d0.row ≤ res.droplet.row := by
  by_cases hlt : d0.frame + d0.speed < 1
  · rw [dropletTick_rest rows col rng d0 hlt] at h
    injection h with h; subst h
    exact le_refl _
  · have h1 : 1 ≤ d0.frame + d0.speed := not_lt.mp hlt
    by_cases hx : rows + d0.len ≤ d0.row
    · rw [dropletTick_replace rows col rng d0 h1 hx] at h
      cases hs : spawnDroplet rows rng with
      | none => rw [hs] at h; cases h
      | some fresh =>
          rw [hs] at h
          injection h with h; subst h
          cases hrep
    · rw [dropletTick_step rows col rng d0 h1 (not_le.mp hx)] at h
      injection h with h; subst h
      exact Nat.le_succ _

/-- Witness for C9: the seed droplet's first tick does not replace it and its
row moves from `0` to `1`. -/
theorem C9_row_monotone_witness :
    dropletTick 5 0 rng0 seedDroplet =
      some { droplet := { row := 1, len := 2, max_len := 3, frame := 1, speed := 1 },
             ops := [{ col := 0, row := 0, color := TermColor.Rgb 170 255 170,
                       glyph := 65382 }],
             replaced := false } ∧
    (false = false) ∧ seedDroplet.row ≤ 1 :=
  ⟨seed_tick_eval, rfl,
   C9_row_monotone 5 0 rng0 seedDroplet _ seed_tick_eval rfl⟩

/-- C10: when the trail-paint loop paints the cell at distance `d = len` from
the head (which requires `row ≥ len` and `row - len < rows`), that cell gets
the fully dark color `(0, 0, 0)`, the tail-erase condition `row > len - 1`
also holds, and the same cell `(col, row - len)` is overwritten with the
reset-colored blank as the LAST write of the tick. -/
theorem C10_dark_cell_erased (rows col : Nat) (rng : Rng) (d0 : Droplet)
    (res : TickResult)
    (h1 : 1 ≤ d0.frame + d0.speed) (h2 : d0.row < rows + d0.len)
    (hlen : 1 ≤ d0.len) (hd : d0.len ≤ d0.row) (hscr : d0.row - d0.len < rows)
    (h : dropletTick rows col rng d0 = some res) :
    (∃ g, ({ col := col, row := d0.row - d0.len, color := TermColor.Rgb 0 0 0,
             glyph := g } : DrawOp) ∈ res.ops) ∧
    res.ops.getLast? = some { col := col, row := d0.row - d0.len,
                              color := TermColor.Reset, glyph := 0x20 } := by
  rw [dropletTick_step rows col rng d0 h1 h2] at h
  injection h with h; subst h
  have he : d0.len - 1 < d0.row := lt_of_lt_of_le (Nat.sub_lt hlen one_pos) hd
  rw [if_pos he]
  constructor
  · refine ⟨random_char (rng.glyphAt d0.len), List.mem_append_left _ ?_⟩
    have hm := trailOps_mem_tail col rows
      { d0 with frame := d0.frame + d0.speed } rng.glyphAt hd hscr
    rw [color_gradient_tail] at hm
    exact hm
  · exact getLast?_append_single _ _

/-- Witness for C10: a droplet with `row=3, len=2` on `rows=5`; the dark cell
at row `1` is painted and then erased by the final write. -/
theorem C10_dark_cell_erased_witness :
    (1 : ℚ) ≤ 1 + 1 ∧ (3 : Nat) < 5 + 2 ∧ (1 : Nat) ≤ 2 ∧ (2 : Nat) ≤ 3 ∧
    3 - 2 < 5 ∧
    dropletTick 5 0 rng0 { row := 3, len := 2, max_len := 2, frame := 1, speed := 1 } =
      some { droplet := { row := 4, len := 2, max_len := 2, frame := 1, speed := 1 },
             ops := [{ col := 0, row := 3, color := TermColor.Rgb 170 255 170,
                       glyph := 65382 },
                     { col := 0, row := 2, color := TermColor.Rgb 85 127 85,
                       glyph := 65382 },
                     { col := 0, row := 1, color := TermColor.Rgb 0 0 0,
                       glyph := 65382 },
                     { col := 0, row := 1, color := TermColor.Reset, glyph := 32 }],
             replaced := false } ∧
    ((∃ g, ({ col := 0, row := 3 - 2, color := TermColor.Rgb 0 0 0,
              glyph := g } : DrawOp) ∈
        [({ col := 0, row := 3, color := TermColor.Rgb 170 255 170,
            glyph := 65382 } : DrawOp),
         { col := 0, row := 2, color := TermColor.Rgb 85 127 85, glyph := 65382 },
         { col := 0, row := 1, color := TermColor.Rgb 0 0 0, glyph := 65382 },
         { col := 0, row := 1, color := TermColor.Reset, glyph := 32 }]) ∧
     ([({ col := 0, row := 3, color := TermColor.Rgb 170 255 170,
          glyph := 65382 } : DrawOp),
        { col := 0, row := 2, color := TermColor.Rgb 85 127 85, glyph := 65382 },
        { col := 0, row := 1, color := TermColor.Rgb 0 0 0, glyph := 65382 },
        { col := 0, row := 1, color := TermColor.Reset, glyph := 32 }]).getLast? =
       some { col := 0, row := 3 - 2, color := TermColor.Reset, glyph := 32 }) := by
  have ht : dropletTick 5 0 rng0
      { row := 3, len := 2, max_len := 2, frame := 1, speed := 1 } =
      some { droplet := { row := 4, len := 2, max_len := 2, frame := 1, speed := 1 },
             ops := [{ col := 0, row := 3, color := TermColor.Rgb 170 255 170,
                       glyph := 65382 },
                     { col := 0, row := 2, color := TermColor.Rgb 85 127 85,
                       glyph := 65382 },
                     { col := 0, row := 1, color := TermColor.Rgb 0 0 0,
                       glyph := 65382 },
                     { col := 0, row := 1, color := TermColor.Reset, glyph := 32 }],
             replaced := false } := by
    norm_num [dropletTick, rng0, trailOps, List.range_succ, color_gradient,
      f64_as_u8, random_char, BASE_COLOR, List.filterMap_cons, List.filterMap_nil,
      Nat.min_def]
    decide
  refine ⟨by norm_num, by norm_num, by norm_num, by norm_num, by norm_num, ht, ?_⟩
  exact C10_dark_cell_erased 5 0 rng0
    { row := 3, len := 2, max_len := 2, frame := 1, speed := 1 } _
    (by norm_num) (by norm_num) (by norm_num) (by norm_num) (by norm_num) ht
